import Mathlib

/-! Shallow embedding of `src/co2-monitor.js` (the `CO2Monitor` class): the frame
decryption routine `_decrypt`, the `data`-handler validation and opcode dispatch
inside `transfer`, the `connect`/`disconnect` lifecycle steps, and the
constructor's option handling, with theorems about them.

Machine integers are modelled as `Nat` with explicit masking, JS `Buffer`s as
`List Nat`, JS `null`/`undefined` as `Option`, a thrown `TypeError` (or other
uncaught exception) as a `crash` outcome, and the floating-point arithmetic of
the temperature conversion as exact rational arithmetic (`ℚ`) with two-decimal
rounding (`toFixed(2)`); at the concrete values considered here the IEEE-double
computation and the exact rational computation round to the same two-decimal
result. -/

namespace CO2Monitor

/-- The fixed 8-byte key `this._key` from the constructor
(`C4 C6 C0 92 40 23 DC 96`). -/
def fixedKey : List Nat := [0xc4, 0xc6, 0xc0, 0x92, 0x40, 0x23, 0xdc, 0x96]

/-- The `cstate` constant of `_decrypt` (ASCII of `"Htemp99e"`). -/
def cstate : List Nat := [0x48, 0x74, 0x65, 0x6D, 0x70, 0x39, 0x39, 0x65]

/-- The `shuffle` permutation table of `_decrypt`. -/
def shuffle : List Nat := [2, 4, 0, 7, 1, 6, 5, 3]

/-- `CO2Monitor._decrypt(key, data)`: the three loops of the source, verbatim.
The JS `dataXor` array is built by writing `data[i] ^ key[idx]` at
`idx = shuffle[i]`; since `shuffle` permutes `0..7` every slot is written, so
starting from a zero-filled list and using `List.set` is faithful.  The JS
index expression `(i - 1 + 8) % 8` is computed in `Int` to keep the wrap-around
of `i = 0` exact. -/
def decrypt (key data : List Nat) : List Nat :=
  let dataXor : List Nat :=
    (List.range 8).foldl
      (fun acc i =>
        let idx := shuffle.getD i 0
        acc.set idx (Nat.xor (data.getD i 0) (key.getD idx 0)))
      (List.replicate 8 0)
  let dataTmp : List Nat :=
    (List.range 8).map
      (fun i =>
        (dataXor.getD i 0 >>> 3 ||| dataXor.getD (((i : Int) - 1 + 8) % 8).toNat 0 <<< 5) &&& 0xff)
  (List.range 8).map
    (fun i =>
      let c := cstate.getD i 0
      let ctmp := (c >>> 4 ||| c <<< 4) &&& 0xff
      (0x100 + dataTmp.getD i 0 - ctmp) &&& 0xff)

/-- The cached readings of a session: `this._temp`, `this._co2`, `this._hum`
(each initially `null`). -/
structure Readings where
  temp : Option ℚ
  co2 : Option Nat
  hum : Option ℚ
deriving DecidableEq, Repr

/-- The error conditions the class reports through `error` events and errored
callbacks. -/
inductive ErrKind where
  | deviceNotFound
  | interfaceNotFound
  | transferFailed
  | checksum
  | release
deriving DecidableEq, Repr

/-- Observable occurrences, in program order: events emitted on the monitor
(`error`, `connect`, `disconnect`, `temp`, `co2`, `hum`) and the externally
visible USB actions the lifecycle methods invoke. -/
inductive Event where
  | error (e : ErrKind)
  | connected
  | disconnected
  | temp (v : ℚ)
  | co2 (v : Nat)
  | hum (v : ℚ)
  | actDetachKernelDriver
  | actClaim
  | actReattachKernelDriver
  | actRelease
  | actClose
deriving DecidableEq, Repr

/-- `parseFloat(x.toFixed(2))`: round to two decimal places. -/
def toFixed2 (x : ℚ) : ℚ := (round (x * 100) : ℤ) / 100

/-- The opcode `switch` of the `data` handler: `0x42` caches a temperature and
emits `temp`, `0x50` caches the CO2 value and emits `co2`, `0x41` caches a
humidity and emits `hum` (its missing `break` falls into the empty `default`,
which has no effect), anything else hits the empty `default`. -/
def dispatchOp (s : Readings) (decrypted : List Nat) : Readings × List Event :=
  let op := decrypted.getD 0 0
  let value := decrypted.getD 1 0 <<< 8 ||| decrypted.getD 2 0
  if op = 0x42 then
    let t := toFixed2 ((value : ℚ) / 16 - 273.15)
    ({ s with temp := some t }, [Event.temp t])
  else if op = 0x50 then
    ({ s with co2 := some value }, [Event.co2 value])
  else if op = 0x41 then
    let h := (value : ℚ) / 100
    ({ s with hum := some h }, [Event.hum h])
  else
    (s, [])

/-- The `data` handler applied to an already-decoded frame: the checksum /
marker-byte validation gate of lines 122-130 followed by the opcode switch.
Rejection emits `error (Checksum Error.)` and returns before the switch. -/
def handleDecoded (s : Readings) (decrypted : List Nat) : Readings × List Event :=
  let checksum := decrypted.getD 3 0
  let sum := ((decrypted.take 3).foldl (fun a item => a + item) 0) &&& 0xff
  if decrypted.getD 4 0 ≠ 0x0d ∨ checksum ≠ sum then
    (s, [Event.error ErrKind.checksum])
  else
    dispatchOp s decrypted

/-- The full `data` handler: decrypt unless the raw frame already carries the
plaintext marker `0x0D` at index 4, then validate and dispatch. -/
def handleData (key : List Nat) (s : Readings) (data : List Nat) : Readings × List Event :=
  let decrypted := if data.getD 4 0 ≠ 0x0d then decrypt key data else data
  handleDecoded s decrypted

/-- The validation condition of the gate, phrased as the spec phrases it. -/
def frameOk (d : List Nat) : Prop :=
  d.getD 4 0 = 0x0d ∧ d.getD 3 0 = (d.getD 0 0 + d.getD 1 0 + d.getD 2 0) % 256

instance (d : List Nat) : Decidable (frameOk d) := by
  unfold frameOk; infer_instance

/-- A validated temperature frame: opcode `0x42`, value `0x1194` (4500),
checksum `(0x42 + 0x11 + 0x94) % 256 = 0xE7`, marker `0x0D`. -/
def frameTemp : List Nat := [0x42, 0x11, 0x94, 0xE7, 0x0D, 0, 0, 0]

/-- A validated CO2 frame: opcode `0x50`, value `0x0258` (600),
checksum `0xAA`, marker `0x0D`. -/
def frameCo2 : List Nat := [0x50, 0x02, 0x58, 0xAA, 0x0D, 0, 0, 0]

/-- A validated humidity frame: opcode `0x41`, value `0x1324` (4900),
checksum `0x78`, marker `0x0D`. -/
def frameHum : List Nat := [0x41, 0x13, 0x24, 0x78, 0x0D, 0, 0, 0]

/-- The handle-holding fields of a session: `this._device`, `this._interface`,
`this._endpoint` (all `null` initially), plus whether `interface.claim()` has
been called.  Handles are abstract numeric identities so that distinct devices
or interfaces are distinguishable. -/
structure Session where
  device : Option Nat
  intf : Option Nat
  endpoint : Option Nat
  claimed : Bool
deriving DecidableEq, Repr

/-- The USB environment `connect` runs against: what `usb.findByIds` returns,
what `device.interfaces[0]` is, the platform, whether a kernel driver is
active, whether the control transfer succeeds, and `interface.endpoints[0]`. -/
structure ConnEnv where
  findResult : Option Nat
  interface0 : Option Nat
  platformLinux : Bool
  kernelDriverActive : Bool
  transferOk : Bool
  endpoint0 : Nat
deriving DecidableEq, Repr

/-- Result of running a lifecycle method: either an uncaught JS exception
(`crash`), or normal completion with the resulting session fields, the
observable events/actions in order, and the value passed to the callback
(`some e` for `callback(err)`, `none` for a success callback). -/
inductive Outcome where
  | crash (msg : String)
  | ok (s : Session) (events : List Event) (cb : Option ErrKind)
deriving DecidableEq, Repr

/-- `CO2Monitor.connect`, line by line: `this._device` is assigned the
`findByIds` result before any check; on a missing device an error event is
emitted and the callback errs.  Otherwise the device is opened and
`this._interface` is assigned `interfaces[0]`.  The Linux kernel-driver probe
(line 58) dereferences `this._interface` before the `!this._interface` guard
(line 61), so on Linux with a missing interface it throws a `TypeError`.  The
control transfer then either fails (error event, errored callback, nothing
else) or succeeds (interface claimed, `this._endpoint` assigned
`endpoints[0]`, `connect` emitted, success callback). -/
def connect (env : ConnEnv) (s : Session) : Outcome :=
  match env.findResult with
  | none =>
      Outcome.ok { s with device := none }
        [Event.error ErrKind.deviceNotFound] (some ErrKind.deviceNotFound)
  | some d =>
      let s1 : Session := { s with device := some d, intf := env.interface0 }
      if env.platformLinux && env.interface0.isNone then
        Outcome.crash "TypeError: cannot call isKernelDriverActive of undefined"
      else
        let detachEvents :=
          if env.platformLinux && env.kernelDriverActive then
            [Event.actDetachKernelDriver]
          else []
        match env.interface0 with
        | none =>
            Outcome.ok s1 (detachEvents ++ [Event.error ErrKind.interfaceNotFound])
              (some ErrKind.interfaceNotFound)
        | some _ =>
            if env.transferOk then
              Outcome.ok { s1 with claimed := true, endpoint := some env.endpoint0 }
                (detachEvents ++ [Event.actClaim, Event.connected]) none
            else
              Outcome.ok s1 (detachEvents ++ [Event.error ErrKind.transferFailed])
                (some ErrKind.transferFailed)

/-- The environment `disconnect` runs against: the platform, whether
`attachKernelDriver()` throws, and whether `release` reports an error. -/
structure DiscEnv where
  platformLinux : Bool
  reattachThrows : Bool
  releaseErr : Bool
deriving DecidableEq, Repr

/-- `CO2Monitor.disconnect`, line by line: `this._endpoint.stopPoll` throws a
`TypeError` when `this._endpoint` is `null`.  Inside the `stopPoll` callback,
on Linux `this._interface.attachKernelDriver()` is called with no try/catch:
a `null` interface or a throwing reattach escapes as an uncaught exception and
nothing further runs.  Otherwise `release` runs; a release error is emitted as
an `error` event but the sequence continues: the device is closed,
`disconnect` is emitted, and the callback receives the release error, if any.
The session fields are never reassigned. -/
def disconnect (env : DiscEnv) (s : Session) : Outcome :=
  match s.endpoint with
  | none => Outcome.crash "TypeError: cannot call stopPoll of null"
  | some _ =>
      match s.intf with
      | none =>
          if env.platformLinux then
            Outcome.crash "TypeError: cannot call attachKernelDriver of null"
          else
            Outcome.crash "TypeError: cannot call release of null"
      | some _ =>
          if env.platformLinux && env.reattachThrows then
            Outcome.crash "uncaught LIBUSB error from attachKernelDriver"
          else
            let reattachEvents :=
              if env.platformLinux then [Event.actReattachKernelDriver] else []
            let releaseEvents :=
              if env.releaseErr then
                [Event.actRelease, Event.error ErrKind.release]
              else [Event.actRelease]
            match s.device with
            | none => Outcome.crash "TypeError: cannot call close of null"
            | some _ =>
                Outcome.ok s
                  (reattachEvents ++ releaseEvents ++ [Event.actClose, Event.disconnected])
                  (if env.releaseErr then some ErrKind.release else none)

/-- A session on which `connect` has never succeeded: all handles `null`. -/
def freshSession : Session := ⟨none, none, none, false⟩

/-- A fully connected session: device, interface and endpoint all held. -/
def connectedSession : Session := ⟨some 1, some 2, some 3, true⟩

/-- The optional `options` object of the constructor (`options.vid`,
`options.pid`); `none` models a missing object or a missing field. -/
structure MonitorOptions where
  vid : Option Nat
  pid : Option Nat
deriving DecidableEq, Repr

/-- JS `(o && o.field) || dflt` for a numeric field: a missing object, a
missing field, or the falsy number `0` all select the default. -/
def jsOrDefault (x : Option Nat) (dflt : Nat) : Nat :=
  match x with
  | none => dflt
  | some v => if v = 0 then dflt else v

/-- `this._vid = (o && o.vid) || 0x04D9` from the constructor. -/
def resolveVid (o : Option MonitorOptions) : Nat :=
  jsOrDefault (o.bind fun m => m.vid) 0x04D9

/-- `this._pid = (o && o.pid) || 0xA052` from the constructor. -/
def resolvePid (o : Option MonitorOptions) : Nat :=
  jsOrDefault (o.bind fun m => m.pid) 0xA052

/-- Claim C1: decrypting the all-zero 8-byte raw frame with the fixed key
`C4 C6 C0 92 40 23 DC 96` yields exactly the bytes `54 51 82 3C 41 71 E8 3C`. -/
theorem decrypt_zero_frame :
    decrypt fixedKey [0, 0, 0, 0, 0, 0, 0, 0] =
      [0x54, 0x51, 0x82, 0x3C, 0x41, 0x71, 0xE8, 0x3C] := by
  decide

theorem land_255_eq_mod (n : Nat) : n &&& 0xff = n % 256 := by
  simpa using Nat.and_pow_two_sub_one_eq_mod n 8

theorem take3_foldl (d : List Nat) :
    (d.take 3).foldl (fun a item => a + item) 0 =
      d.getD 0 0 + d.getD 1 0 + d.getD 2 0 := by
  match d with
  | [] => simp [List.getD]
  | [a] => simp [List.getD]
  | [a, b] => simp [List.getD]
  | a :: b :: c :: rest => simp [List.getD]

theorem handleDecoded_reject (s : Readings) (d : List Nat) (h : ¬ frameOk d) :
    handleDecoded s d = (s, [Event.error ErrKind.checksum]) := by
  unfold handleDecoded
  rw [if_pos]
  rw [take3_foldl, land_255_eq_mod]
  unfold frameOk at h
  tauto

theorem handleDecoded_accept (s : Readings) (d : List Nat) (h : frameOk d) :
    handleDecoded s d = dispatchOp s d := by
  unfold handleDecoded
  rw [if_neg]
  rw [take3_foldl, land_255_eq_mod]
  unfold frameOk at h
  tauto

theorem dispatchOp_no_error (s : Readings) (d : List Nat) (e : ErrKind) :
    Event.error e ∉ (dispatchOp s d).2 := by
  unfold dispatchOp
  dsimp only
  split_ifs <;> simp

/-- Claim C2: a decoded 8-byte frame is accepted iff byte 4 is `0x0D` and
byte 3 equals `(byte 0 + byte 1 + byte 2) % 256`; on either violation the
handler emits exactly one `ChecksumError`, leaves all three cached readings
unchanged, and emits no reading event. -/
theorem frame_validation (s : Readings) (d : List Nat) (hlen : d.length = 8) :
    (Event.error ErrKind.checksum ∉ (handleDecoded s d).2 ↔ frameOk d) ∧
    (¬ frameOk d → handleDecoded s d = (s, [Event.error ErrKind.checksum])) := by
  constructor
  · constructor
    · intro hmem
      by_contra hbad
      rw [handleDecoded_reject s d hbad] at hmem
      simp at hmem
    · intro hok
      rw [handleDecoded_accept s d hok]
      exact dispatchOp_no_error s d ErrKind.checksum
  · exact handleDecoded_reject s d

/-- Witness for C2 at the concrete accepted frame `00 00 00 00 0D 00 00 00`. -/
theorem frame_validation_witness :
    ([0, 0, 0, 0, 0x0d, 0, 0, 0] : List Nat).length = 8 ∧
    ((Event.error ErrKind.checksum ∉
        (handleDecoded ⟨none, none, none⟩ [0, 0, 0, 0, 0x0d, 0, 0, 0]).2 ↔
        frameOk [0, 0, 0, 0, 0x0d, 0, 0, 0]) ∧
      (¬ frameOk [0, 0, 0, 0, 0x0d, 0, 0, 0] →
        handleDecoded ⟨none, none, none⟩ [0, 0, 0, 0, 0x0d, 0, 0, 0] =
          (⟨none, none, none⟩, [Event.error ErrKind.checksum]))) :=
  ⟨rfl, frame_validation ⟨none, none, none⟩ [0, 0, 0, 0, 0x0d, 0, 0, 0] rfl⟩

/-- Claim C3: a raw frame whose byte 4 is already `0x0D` is passed to the
validation gate and opcode switch unmodified (no decryption), and is still
subject to the checksum check: a bad checksum still yields a `ChecksumError`
with no state change. -/
theorem plaintext_bypass (key : List Nat) (s : Readings) (d : List Nat)
    (h : d.getD 4 0 = 0x0d) :
    handleData key s d = handleDecoded s d ∧
    (d.getD 3 0 ≠ (d.getD 0 0 + d.getD 1 0 + d.getD 2 0) % 256 →
      handleData key s d = (s, [Event.error ErrKind.checksum])) := by
  have hpass : handleData key s d = handleDecoded s d := by
    unfold handleData
    rw [if_neg]
    exact fun hne => hne h
  refine ⟨hpass, fun hbad => ?_⟩
  rw [hpass]
  apply handleDecoded_reject
  unfold frameOk
  tauto

/-- Witness for C3 at the concrete plaintext frame `00 00 00 01 0D 00 00 00`
(marker present, checksum wrong). -/
theorem plaintext_bypass_witness :
    ([0, 0, 0, 1, 0x0d, 0, 0, 0] : List Nat).getD 4 0 = 0x0d ∧
    (handleData fixedKey ⟨none, none, none⟩ [0, 0, 0, 1, 0x0d, 0, 0, 0] =
        handleDecoded ⟨none, none, none⟩ [0, 0, 0, 1, 0x0d, 0, 0, 0] ∧
      (([0, 0, 0, 1, 0x0d, 0, 0, 0] : List Nat).getD 3 0 ≠
          (([0, 0, 0, 1, 0x0d, 0, 0, 0] : List Nat).getD 0 0 +
            ([0, 0, 0, 1, 0x0d, 0, 0, 0] : List Nat).getD 1 0 +
            ([0, 0, 0, 1, 0x0d, 0, 0, 0] : List Nat).getD 2 0) % 256 →
        handleData fixedKey ⟨none, none, none⟩ [0, 0, 0, 1, 0x0d, 0, 0, 0] =
          (⟨none, none, none⟩, [Event.error ErrKind.checksum]))) :=
  ⟨rfl, plaintext_bypass fixedKey ⟨none, none, none⟩ [0, 0, 0, 1, 0x0d, 0, 0, 0] rfl⟩

theorem toFixed2_value4500 : toFixed2 ((4500 : ℚ) / 16 - 273.15) = 81 / 10 := by
  unfold toFixed2
  have h : ((4500 : ℚ) / 16 - 273.15) * 100 = ((810 : ℤ) : ℚ) := by norm_num
  rw [h, round_intCast]
  norm_num

theorem handleDecoded_frameTemp :
    handleDecoded ⟨none, none, none⟩ frameTemp =
      (⟨some ((81 : ℚ) / 10), none, none⟩, [Event.temp ((81 : ℚ) / 10)]) := by
  rw [handleDecoded_accept _ _ (by decide)]
  unfold dispatchOp
  dsimp only
  rw [if_pos (by decide)]
  have hnat : (frameTemp.getD 1 0 <<< 8 ||| frameTemp.getD 2 0 : Nat) = 4500 := by decide
  rw [hnat]
  have hc : ((4500 : Nat) : ℚ) = 4500 := by norm_num
  rw [hc, toFixed2_value4500]

theorem handleDecoded_frameHum :
    handleDecoded ⟨none, none, none⟩ frameHum =
      (⟨none, none, some (49 : ℚ)⟩, [Event.hum (49 : ℚ)]) := by
  rw [handleDecoded_accept _ _ (by decide)]
  unfold dispatchOp
  dsimp only
  rw [if_neg (by decide), if_neg (by decide), if_pos (by decide)]
  have hnat : (frameHum.getD 1 0 <<< 8 ||| frameHum.getD 2 0 : Nat) = 4900 := by decide
  rw [hnat]
  norm_num

/-- Counterexample to claim C4 as stated: the validated frame with opcode
`0x42` and value `0x1194` (4500) does not cache temperature `7.10`;
`4500 / 16 - 273.15 = 281.25 - 273.15 = 8.10`, not `7.10`. -/
theorem opcode_42_not_710 :
    (handleDecoded ⟨none, none, none⟩ frameTemp).1.temp ≠ some ((71 : ℚ) / 10) := by
  rw [handleDecoded_frameTemp]
  norm_num

/-- Claim C4 (amended): opcode `0x42` with value `0x1194` (4500) caches
temperature `8.10` (`value / 16 - 273.15` rounded to two decimals); opcode
`0x50` with value `0x0258` caches CO2 reading `600`; opcode `0x41` with value
`0x1324` (4900) caches humidity `49.0`. -/
theorem opcode_mapping :
    (handleDecoded ⟨none, none, none⟩ frameTemp).1.temp = some ((81 : ℚ) / 10) ∧
    (handleDecoded ⟨none, none, none⟩ frameCo2).1.co2 = some 600 ∧
    (handleDecoded ⟨none, none, none⟩ frameHum).1.hum = some (49 : ℚ) := by
  refine ⟨?_, by decide, ?_⟩
  · rw [handleDecoded_frameTemp]
  · rw [handleDecoded_frameHum]

/-- Claim C5: a validated frame updates at most one cached reading and emits at
most one event: opcode `0x42` changes only the temperature field and emits one
`temp` event, `0x50` only the co2 field with one `co2` event, `0x41` only the
humidity field with one `hum` event, and any other opcode leaves all three
fields unchanged and emits nothing (no error). -/
theorem single_field_update (s : Readings) (d : List Nat) (h : frameOk d) :
    ((handleDecoded s d).2.length ≤ 1) ∧
    (d.getD 0 0 = 0x42 →
      (handleDecoded s d).1.co2 = s.co2 ∧ (handleDecoded s d).1.hum = s.hum ∧
      ∃ v, (handleDecoded s d).2 = [Event.temp v]) ∧
    (d.getD 0 0 = 0x50 →
      (handleDecoded s d).1.temp = s.temp ∧ (handleDecoded s d).1.hum = s.hum ∧
      ∃ v, (handleDecoded s d).2 = [Event.co2 v]) ∧
    (d.getD 0 0 = 0x41 →
      (handleDecoded s d).1.temp = s.temp ∧ (handleDecoded s d).1.co2 = s.co2 ∧
      ∃ v, (handleDecoded s d).2 = [Event.hum v]) ∧
    (d.getD 0 0 ≠ 0x42 ∧ d.getD 0 0 ≠ 0x50 ∧ d.getD 0 0 ≠ 0x41 →
      handleDecoded s d = (s, [])) := by
  rw [handleDecoded_accept s d h]
  unfold dispatchOp
  dsimp only
  split_ifs with h42 h50 h41 <;>
    simp_all

/-- Witness for C5 at the concrete validated CO2 frame. -/
theorem single_field_update_witness :
    frameOk frameCo2 ∧
    (((handleDecoded ⟨none, none, none⟩ frameCo2).2.length ≤ 1) ∧
      (frameCo2.getD 0 0 = 0x42 →
        (handleDecoded ⟨none, none, none⟩ frameCo2).1.co2 = (none : Option Nat) ∧
        (handleDecoded ⟨none, none, none⟩ frameCo2).1.hum = (none : Option ℚ) ∧
        ∃ v, (handleDecoded ⟨none, none, none⟩ frameCo2).2 = [Event.temp v]) ∧
      (frameCo2.getD 0 0 = 0x50 →
        (handleDecoded ⟨none, none, none⟩ frameCo2).1.temp = (none : Option ℚ) ∧
        (handleDecoded ⟨none, none, none⟩ frameCo2).1.hum = (none : Option ℚ) ∧
        ∃ v, (handleDecoded ⟨none, none, none⟩ frameCo2).2 = [Event.co2 v]) ∧
      (frameCo2.getD 0 0 = 0x41 →
        (handleDecoded ⟨none, none, none⟩ frameCo2).1.temp = (none : Option ℚ) ∧
        (handleDecoded ⟨none, none, none⟩ frameCo2).1.co2 = (none : Option Nat) ∧
        ∃ v, (handleDecoded ⟨none, none, none⟩ frameCo2).2 = [Event.hum v]) ∧
      (frameCo2.getD 0 0 ≠ 0x42 ∧ frameCo2.getD 0 0 ≠ 0x50 ∧ frameCo2.getD 0 0 ≠ 0x41 →
        handleDecoded ⟨none, none, none⟩ frameCo2 = (⟨none, none, none⟩, []))) :=
  ⟨by decide, single_field_update ⟨none, none, none⟩ frameCo2 (by decide)⟩

/-- Counterexample to claim C6 as stated: in a session where all handles start
`null`, when the device is found and the interface exists but the control
transfer fails, `connect` still leaves `this._device` and `this._interface`
assigned to the newly found handles — the session state is not the same as
before the call. -/
theorem connect_transfer_fail_mutates :
    connect ⟨some 1, some 2, false, false, false, 3⟩ freshSession =
      Outcome.ok ⟨some 1, some 2, none, false⟩
        [Event.error ErrKind.transferFailed] (some ErrKind.transferFailed) ∧
    (⟨some 1, some 2, none, false⟩ : Session) ≠ freshSession := by
  decide

/-- Claim C6 (amended): when the control-transfer handshake fails, `connect`
emits an `error` event and calls the callback with the error, emits no
`connect` event, does not claim the interface, and leaves the endpoint and
claimed flag unchanged — but the device and interface fields have been
reassigned to the newly found handles rather than left as they were. -/
theorem connect_handshake_failure (env : ConnEnv) (s : Session) (d i : Nat)
    (hf : env.findResult = some d) (hi : env.interface0 = some i)
    (ht : env.transferOk = false) :
    ∃ evts, connect env s =
        Outcome.ok { s with device := some d, intf := some i } evts
          (some ErrKind.transferFailed) ∧
      Event.error ErrKind.transferFailed ∈ evts ∧
      Event.connected ∉ evts ∧ Event.actClaim ∉ evts := by
  unfold connect
  rw [hf]
  simp only [hi, ht, Option.isNone_some, Bool.and_false, Bool.false_eq_true, if_false,
    Bool.and_self]
  refine ⟨_, rfl, ?_, ?_, ?_⟩ <;> split <;> simp

/-- Witness for C6 (amended) at a concrete environment and the fresh session. -/
theorem connect_handshake_failure_witness :
    (⟨some 1, some 2, false, false, false, 3⟩ : ConnEnv).findResult = some 1 ∧
    (⟨some 1, some 2, false, false, false, 3⟩ : ConnEnv).interface0 = some 2 ∧
    (⟨some 1, some 2, false, false, false, 3⟩ : ConnEnv).transferOk = false ∧
    (∃ evts, connect ⟨some 1, some 2, false, false, false, 3⟩ freshSession =
        Outcome.ok ⟨some 1, some 2, none, false⟩ evts (some ErrKind.transferFailed) ∧
      Event.error ErrKind.transferFailed ∈ evts ∧
      Event.connected ∉ evts ∧ Event.actClaim ∉ evts) :=
  ⟨rfl, rfl, rfl,
    connect_handshake_failure ⟨some 1, some 2, false, false, false, 3⟩ freshSession 1 2
      rfl rfl rfl⟩

/-- Claim C7 (code bug): when the device is found and opened but
`interfaces[0]` is absent, `connect` on Linux dereferences the missing
interface (`isKernelDriverActive`) before the `!this._interface` guard and
throws a `TypeError` instead of reporting `Interface not found!`; only on a
non-Linux platform does the guard fire and report the error gracefully. -/
theorem connect_missing_interface :
    connect ⟨some 1, none, true, false, true, 0⟩ freshSession =
      Outcome.crash "TypeError: cannot call isKernelDriverActive of undefined" ∧
    connect ⟨some 1, none, false, false, true, 0⟩ freshSession =
      Outcome.ok ⟨some 1, none, none, false⟩
        [Event.error ErrKind.interfaceNotFound] (some ErrKind.interfaceNotFound) :=
  ⟨rfl, rfl⟩

/-- Claim C8 (code bug): calling `disconnect` on a session that was never
connected throws a `TypeError` — `this._endpoint` is `null` and
`this._endpoint.stopPoll` is called unconditionally — for every environment,
instead of completing with non-fatal error events.  (The repository's own
`index.js` error handler calls `disconnect()` on errors that occur before any
successful connect, so this path is reachable.) -/
theorem disconnect_never_connected (env : DiscEnv) :
    disconnect env freshSession =
      Outcome.crash "TypeError: cannot call stopPoll of null" := rfl

/-- Counterexample to claim C9 as stated: on a fully connected session on
Linux, when `attachKernelDriver` throws, `disconnect` ends as an uncaught
exception — no interface release, no device close, and no `disconnect` event
(the completed-teardown outcome is never produced). -/
theorem disconnect_reattach_throw_aborts :
    disconnect ⟨true, true, false⟩ connectedSession =
      Outcome.crash "uncaught LIBUSB error from attachKernelDriver" := rfl

/-- Claim C9 (amended): on a connected session, when the kernel-driver
reattachment does not throw, interface release and device close are attempted
and `disconnect` is emitted even if the release fails (the release error is
reported through an `error` event and the callback); but when reattachment
throws, teardown aborts with an uncaught exception. -/
theorem disconnect_partial_teardown (env : DiscEnv) (s : Session) (dd ii ee : Nat)
    (hd : s.device = some dd) (hi : s.intf = some ii) (he : s.endpoint = some ee)
    (hnothrow : (env.platformLinux && env.reattachThrows) = false) :
    ∃ evts, disconnect env s =
        Outcome.ok s evts (if env.releaseErr then some ErrKind.release else none) ∧
      Event.actRelease ∈ evts ∧ Event.actClose ∈ evts ∧ Event.disconnected ∈ evts ∧
      (env.releaseErr = true → Event.error ErrKind.release ∈ evts) := by
  refine ⟨(if env.platformLinux then [Event.actReattachKernelDriver] else []) ++
      (if env.releaseErr then [Event.actRelease, Event.error ErrKind.release]
        else [Event.actRelease]) ++ [Event.actClose, Event.disconnected],
    ?_, ?_, ?_, ?_, ?_⟩
  · unfold disconnect
    rw [he, hi, hd, hnothrow]
    rfl
  · cases env.platformLinux <;> cases env.releaseErr <;> simp
  · cases env.platformLinux <;> cases env.releaseErr <;> simp
  · cases env.platformLinux <;> cases env.releaseErr <;> simp
  · intro hr
    cases env.platformLinux <;> simp [hr]

/-- Witness for C9 (amended): Linux platform, reattachment succeeds, release
fails, on the connected session. -/
theorem disconnect_partial_teardown_witness :
    connectedSession.device = some 1 ∧
    connectedSession.intf = some 2 ∧
    connectedSession.endpoint = some 3 ∧
    ((⟨true, false, true⟩ : DiscEnv).platformLinux &&
        (⟨true, false, true⟩ : DiscEnv).reattachThrows) = false ∧
    (∃ evts, disconnect ⟨true, false, true⟩ connectedSession =
        Outcome.ok connectedSession evts
          (if (⟨true, false, true⟩ : DiscEnv).releaseErr then some ErrKind.release
            else none) ∧
      Event.actRelease ∈ evts ∧ Event.actClose ∈ evts ∧ Event.disconnected ∈ evts ∧
      ((⟨true, false, true⟩ : DiscEnv).releaseErr = true →
        Event.error ErrKind.release ∈ evts)) :=
  ⟨rfl, rfl, rfl, rfl,
    disconnect_partial_teardown ⟨true, false, true⟩ connectedSession 1 2 3 rfl rfl rfl rfl⟩

theorem jsOrDefault_ne_zero (x : Option Nat) (dflt : Nat) (h : dflt ≠ 0) :
    jsOrDefault x dflt ≠ 0 := by
  cases x with
  | none => exact h
  | some v =>
    show (if v = 0 then dflt else v) ≠ 0
    split_ifs with hv
    · exact h
    · exact hv

/-- Claim C10: an explicit but falsy `vid` or `pid` override (here `0`)
silently falls back to the defaults `0x04D9` / `0xA052`, and no choice of
options can ever select a zero vendor or product id. -/
theorem falsy_id_fallback :
    resolveVid (some ⟨some 0, some 0⟩) = 0x04D9 ∧
    resolvePid (some ⟨some 0, some 0⟩) = 0xA052 ∧
    ∀ o : Option MonitorOptions, resolveVid o ≠ 0 ∧ resolvePid o ≠ 0 := by
  refine ⟨rfl, rfl, fun o => ⟨?_, ?_⟩⟩
  · exact jsOrDefault_ne_zero _ _ (by decide)
  · exact jsOrDefault_ne_zero _ _ (by decide)

end CO2Monitor
